import Mathlib

/-!
Verification of the core of the `replicate-javascript` client library.

This file gives a shallow embedding, in Lean, of the request-resilience and
asynchronous-orchestration layer of the repository:

* the recursive binary-payload encoder (`transform`, `isPlainObject`,
  `transformFileInputs` from the util source file),
* the retry/backoff controller (`withAutomaticRetries` from the same file),
* the pagination generator (`paginate` in `lib/replicate.js`),
* the completion waiter (`wait` in `lib/replicate.js`) and the stop-predicate
  the run orchestrator (`run`) feeds it.

JavaScript values are modelled by an inductive type carrying exactly the
runtime data the embedded code inspects (array-ness, the `String(value)` tag
and prototype facts consulted by `isPlainObject`, buffer/blob byte contents
and MIME types).  Machine integers are `Nat`/`Int`; JS number arithmetic on
delays uses `Rat`.  Fallible code returns `Except`; loops that could run
forever are given explicit fuel and return `Option`.
-/

namespace Replicate

/-! ## JavaScript value model for the binary-payload encoder -/

/-- Runtime facts about a JS object that `isPlainObject` consults:
the result of `String(value)` (per-class `Symbol.toStringTag` / `toString`),
whether `Object.getPrototypeOf(value)` is `null`, whether the prototype has an
own `constructor` property that is a function satisfying `Ctor instanceof
Ctor`, and whether that constructor's source text equals `Object`'s. -/
structure ObjMeta where
  stringTag : String
  protoIsNull : Bool
  ctorIsFun : Bool
  ctorSrcIsObjectSrc : Bool
  deriving DecidableEq, Repr

mutual

/-- A JavaScript value, as seen by `transform` / `transformFileInputs`:
arrays, objects (plain or exotic, distinguished by their `ObjMeta`), Node
`Buffer`s (a byte list), `Blob`s (bytes plus a MIME `type`), strings, `null`,
and all remaining primitives (numbers, booleans, `undefined`, ...) identified
by a tag. -/
inductive JSValue where
  | arrV (elems : JSList)
  | objV (meta : ObjMeta) (fields : JSFields)
  | bufV (bytes : List Nat)
  | blobV (bytes : List Nat) (mimeType : String)
  | strV (s : String)
  | nullV
  | primV (tag : String)
  deriving DecidableEq, Repr

/-- The element list of a JS array. -/
inductive JSList where
  | nil
  | cons (v : JSValue) (rest : JSList)
  deriving DecidableEq, Repr

/-- The own enumerable fields of a JS object, in `Object.keys` order. -/
inductive JSFields where
  | nil
  | cons (key : String) (v : JSValue) (rest : JSFields)
  deriving DecidableEq, Repr

end

/-- `isPlainObject` (lodash.isPlainObject, copied into the util source file).
It first requires `typeof value == "object" && value !== null` and
`String(value) === "[object Object]"`, then accepts a `null` prototype, and
otherwise requires the prototype's own `constructor` to be a function whose
source text equals `Object`'s.

Arrays stringify as their joined elements, `Blob`s as `"[object Blob]"`, so
both fail the string-tag test; a `Buffer` whose bytes happen to decode to
`"[object Object]"` still fails because its prototype's constructor is
`Buffer`, not `Object`; strings, numbers, booleans and `undefined` fail
`typeof value == "object"`, and `null` fails `value !== null`. -/
def isPlainObject : JSValue → Bool
  | JSValue.objV meta _ =>
      if meta.stringTag = "[object Object]" then
        if meta.protoIsNull then true
        else meta.ctorIsFun && meta.ctorSrcIsObjectSrc
      else false
  | _ => false

/-- The message of the `TypeError` raised by an assignment to a
`const`-declared variable, as thrown by the array branch of `transform`
(`const copy = []; ... copy = await transform(val, mapper)`). -/
def jsConstAssignmentError : String := "TypeError: Assignment to constant variable."

mutual

/-- `transform(value, mapper)` from the util source file.  The mapper is the
(stateful) leaf transformer; its state (the encoder's `totalBytes` closure
variable) is threaded explicitly as a `Nat`.

The array branch is modelled exactly as written in the source: the body of
`for (const val of value)` evaluates `transform(val, mapper)` for the first
element and then performs `copy = ...`, an assignment to the `const`-declared
accumulator, which raises a `TypeError`; so a non-empty array always yields
that error (after the first element's recursive transform has run), and an
empty array returns a fresh empty array. -/
def transform (mapper : Nat → JSValue → Nat × JSValue) (s : Nat) :
    JSValue → Except String (Nat × JSValue)
  | JSValue.arrV JSList.nil => Except.ok (s, JSValue.arrV JSList.nil)
  | JSValue.arrV (JSList.cons v _) =>
      match transform mapper s v with
      | Except.error e => Except.error e
      | Except.ok _ => Except.error jsConstAssignmentError
  | JSValue.objV meta fields =>
      if isPlainObject (JSValue.objV meta fields) then
        match transformFields mapper s fields with
        | Except.error e => Except.error e
        | Except.ok (s2, fields2) => Except.ok (s2, JSValue.objV meta fields2)
      else Except.ok (mapper s (JSValue.objV meta fields))
  | v => Except.ok (mapper s v)
termination_by structural v => v

/-- The `for (const key of Object.keys(value))` loop of `transform`'s
plain-object branch: each field value is transformed in key order and written
to `copy[key]` (property assignment on a `const` object binding is legal). -/
def transformFields (mapper : Nat → JSValue → Nat × JSValue) (s : Nat) :
    JSFields → Except String (Nat × JSFields)
  | JSFields.nil => Except.ok (s, JSFields.nil)
  | JSFields.cons k v rest =>
      match transform mapper s v with
      | Except.error e => Except.error e
      | Except.ok (s2, v2) =>
          match transformFields mapper s2 rest with
          | Except.error e => Except.error e
          | Except.ok (s3, rest2) => Except.ok (s3, JSFields.cons k v2 rest2)
termination_by structural fs => fs

end

/-- The standard base64 alphabet. -/
def base64Alphabet : String :=
  "ABCDEFGHIJKLMNOPQRSTUVWXYZabcdefghijklmnopqrstuvwxyz0123456789+/"

/-- The base64 digit for a 6-bit value. -/
def base64Char (n : Nat) : Char := base64Alphabet.toList.getD n '='

/-- Encode up to three bytes as four base64 characters, `=`-padded
(models `Buffer.prototype.toString("base64")` on a final partial group). -/
def base64Group : List Nat → List Char
  | [] => []
  | [b0] => [base64Char (b0 / 4), base64Char (b0 % 4 * 16), '=', '=']
  | [b0, b1] =>
      [base64Char (b0 / 4), base64Char (b0 % 4 * 16 + b1 / 16),
       base64Char (b1 % 16 * 4), '=']
  | b0 :: b1 :: b2 :: _ =>
      [base64Char (b0 / 4), base64Char (b0 % 4 * 16 + b1 / 16),
       base64Char (b1 % 16 * 4 + b2 / 64), base64Char (b2 % 64)]

/-- Base64-encode a byte list in three-byte groups
(models `value.toString("base64")` on a Node `Buffer`). -/
def base64Encode : List Nat → String
  | [] => ""
  | b0 :: b1 :: b2 :: rest =>
      String.mk (base64Group [b0, b1, b2]) ++ base64Encode rest
  | bs => String.mk (base64Group bs)

/-- `MAX_DATA_URI_SIZE` from the util source file. -/
def MAX_DATA_URI_SIZE : Nat := 10000000

/-- The template literal `data:${mime};base64,${data}`. -/
def dataURIString (mime : String) (bytes : List Nat) : String :=
  "data:" ++ mime ++ ";base64," ++ base64Encode bytes

/-- The buffer-encoding tail of the leaf mapper in `transformFileInputs`,
reached once `value` is a `Buffer` (a `Blob` has already been converted via
`Buffer.from(await value.arrayBuffer())`, recording its `type` as `mime`).

As written in the source, the accumulator is overwritten, not added to:
`totalBytes = 0 + value.byteLength`.  If the (freshly overwritten) total
exceeds `MAX_DATA_URI_SIZE` the mapper returns `null`; otherwise it returns
the `data:` URI, with `mime = mime ?? "application/octet-stream"` (the
nullish coalescing keeps an empty-string `Blob.type`). -/
def fiEncode (bytes : List Nat) (mime : Option String) : Nat × JSValue :=
  let totalBytes := 0 + bytes.length
  if totalBytes > MAX_DATA_URI_SIZE then (totalBytes, JSValue.nullV)
  else
    (totalBytes,
     JSValue.strV (dataURIString (mime.getD "application/octet-stream") bytes))

/-- The async leaf mapper passed to `transform` by `transformFileInputs`:
`Blob`s and `Buffer`s are base64-encoded (threading the `totalBytes` closure
variable), every other value is returned unchanged. -/
def fiMapper (totalBytes : Nat) (value : JSValue) : Nat × JSValue :=
  match value with
  | JSValue.blobV bytes mime => fiEncode bytes (some mime)
  | JSValue.bufV bytes => fiEncode bytes none
  | v => (totalBytes, v)

/-- `transformFileInputs(inputs)` from the util source file: run the
traversal with `totalBytes` starting at 0, then fail with the size-limit
error if the final `totalBytes` exceeds `MAX_DATA_URI_SIZE`. -/
def transformFileInputs (inputs : JSValue) : Except String JSValue :=
  match transform fiMapper 0 inputs with
  | Except.error e => Except.error e
  | Except.ok (totalBytes, result) =>
      if totalBytes > MAX_DATA_URI_SIZE then
        Except.error ("Combined filesize of prediction " ++ toString totalBytes
          ++ " bytes exceeds 10mb limit for inline encoding, please provide URLs instead")
      else Except.ok result

mutual

/-- Specification-side measure: the aggregate byte length of all binary
leaves of an input tree, following the same container discipline as
`transform` (arrays and plain objects are containers, everything else is a
leaf). -/
def aggregateBinaryBytes : JSValue → Nat
  | JSValue.arrV l => aggregateBinaryBytesList l
  | JSValue.objV meta fields =>
      if isPlainObject (JSValue.objV meta fields) then
        aggregateBinaryBytesFields fields
      else 0
  | JSValue.bufV bytes => bytes.length
  | JSValue.blobV bytes _ => bytes.length
  | _ => 0
termination_by structural v => v

/-- Aggregate binary bytes of an array's elements. -/
def aggregateBinaryBytesList : JSList → Nat
  | JSList.nil => 0
  | JSList.cons v rest => aggregateBinaryBytes v + aggregateBinaryBytesList rest
termination_by structural l => l

/-- Aggregate binary bytes of an object's fields. -/
def aggregateBinaryBytesFields : JSFields → Nat
  | JSFields.nil => 0
  | JSFields.cons _ v rest => aggregateBinaryBytes v + aggregateBinaryBytesFields rest
termination_by structural fs => fs

end

/-- The `ObjMeta` of an object created by an object literal: its prototype is
`Object.prototype`, whose own `constructor` is the base `Object` function. -/
def plainMeta : ObjMeta :=
  { stringTag := "[object Object]"
    protoIsNull := false
    ctorIsFun := true
    ctorSrcIsObjectSrc := true }

/-! ## Retry controller (`withAutomaticRetries`) -/

/-- Outcome of one invocation of the wrapped `request` function: a resolved
response (identified by a `Nat` id interpreted through the `respOk` /
`shouldRetry` oracles), a rejection with an `ApiError` carrying the optional
`Retry-After` header of its response, or a rejection with any other error. -/
inductive Attempt where
  | resp (r : Nat)
  | apiErr (retryAfter : Option String) (e : Nat)
  | err (e : Nat)
  deriving DecidableEq, Repr

/-- The settled value of `withAutomaticRetries`: resolution with a response,
or rejection with the error thrown by the final `request()` call (rejections
inside the loop are caught by the `try`/`catch` and never propagate). -/
inductive RetryResult where
  | resolved (r : Nat)
  | rejectedApi (retryAfter : Option String) (e : Nat)
  | rejected (e : Nat)
  deriving DecidableEq, Repr

/-- `return request();` after the loop: the final attempt's resolution is
returned as-is (without consulting `response.ok` or `shouldRetry`), and its
rejection propagates to the caller. -/
def finalAttemptResult : Attempt → RetryResult
  | Attempt.resp r => RetryResult.resolved r
  | Attempt.apiErr ra e => RetryResult.rejectedApi ra e
  | Attempt.err e => RetryResult.rejected e

/-- The environment of one `withAutomaticRetries` call.  `request k` is the
outcome of the k-th call of the wrapped operation; `random k` the value
`Math.random()` produces at loop iteration k (a rational in `[0,1)`);
`dateParse` models `new Date(s).getTime()` (`none` for an Invalid Date) and
`now k` models `new Date().getTime()` at iteration k.  The options mirror
the source defaults `maxRetries = 5`, `interval = 500`, `jitter = 100`;
`options.maxRetries` is restricted to (absent or) a natural number — the
source never increments `attempts` when `maxRetries` is not a positive
integer and then loops forever, a case outside this model. -/
structure RetryEnv where
  request : Nat → Attempt
  respOk : Nat → Bool
  shouldRetry : Nat → Bool
  random : Nat → Rat
  dateParse : String → Option Int
  now : Nat → Int
  optMaxRetries : Option Nat
  optInterval : Option Rat
  optJitter : Option Rat

/-- JavaScript `options.x || d` defaulting for a natural-number option:
an absent value and the falsy `0` both yield the default. -/
def orDefaultNat (o : Option Nat) (d : Nat) : Nat :=
  match o with
  | none => d
  | some 0 => d
  | some m => m

/-- JavaScript `options.x || d` defaulting for a numeric option:
an absent value and the falsy `0` both yield the default. -/
def orDefaultRat (o : Option Rat) (d : Rat) : Rat :=
  match o with
  | none => d
  | some q => if q = 0 then d else q

/-- `const maxRetries = options.maxRetries || 5`. -/
def RetryEnv.maxRetries (env : RetryEnv) : Nat := orDefaultNat env.optMaxRetries 5

/-- `const interval = options.interval || 500`. -/
def RetryEnv.interval (env : RetryEnv) : Rat := orDefaultRat env.optInterval 500

/-- `const jitter = options.jitter || 100`. -/
def RetryEnv.jitter (env : RetryEnv) : Rat := orDefaultRat env.optJitter 100

/-- `Number.isInteger` applied to a `Retry-After` header value.
`Headers.prototype.get` returns a string (never a number), and
`Number.isInteger` is `false` on every non-number argument, so this is
constantly `false`: the seconds branch of the header handler is
unreachable. -/
def jsNumberIsIntegerStr (_ : String) : Bool := false

/-- The numeric coercion performed by `retryAfter * 1000` on a digit string
(dead code in practice, see `jsNumberIsIntegerStr`). -/
def jsStringToNumber (s : String) : Rat := ((s.toNat?).getD 0 : Rat)

/-- The `catch` branch of the retry loop (source lines 41-57): when the
caught error is an `ApiError` whose response carries a (non-empty, hence
truthy) `Retry-After` header, override the provisional delay.  The header
value is a string, so `Number.isInteger` rejects it and the date branch runs:
a parseable date sets `delay = date.getTime() - new Date().getTime()`, an
invalid date leaves the delay unchanged. -/
def applyRetryAfter (retryAfter : Option String) (dateParse : String → Option Int)
    (now : Int) (delay : Rat) : Rat :=
  match retryAfter with
  | none => delay
  | some s =>
      if s = "" then delay
      else if jsNumberIsIntegerStr s then jsStringToNumber s * 1000
      else
        match dateParse s with
        | some t => ((t - now : Int) : Rat)
        | none => delay

/-- The duration passed to `sleep`:
`interval * 2 ** (options.maxRetries - maxRetries)`.  When
`options.maxRetries` is supplied as a positive integer it equals the local
`maxRetries`, so the exponent is 0 and the slept time is the constant base
`interval`, independent of the attempt number; when it is supplied as the
falsy `0` the local default is 5 and the exponent is `-5`; when it is absent,
`undefined - 5` is `NaN`, `interval * 2 ** NaN` is `NaN`, and `setTimeout`
coerces a `NaN` timeout to `0`. -/
def sleepAmount (optMaxRetries : Option Nat) (maxRetries : Nat) (interval : Rat) : Rat :=
  match optMaxRetries with
  | some m => interval * (2 : Rat) ^ ((m : Int) - (maxRetries : Int))
  | none => 0

/-- The sleep step at the end of a loop body (source lines 59-64), given the
current `delay`: since the effective `maxRetries` is a positive integer, the
outer guard passes, and `sleep(...)` runs exactly when
`Number.isInteger(delay) && delay > 0`; the duration actually slept is
`sleepAmount`, which is appended to the trace. -/
def sleepsAfter (env : RetryEnv) (sleeps : List Rat) (delay : Rat) : List Rat :=
  if delay.isInt && decide (0 < delay) then
    sleeps ++ [sleepAmount env.optMaxRetries env.maxRetries env.interval]
  else sleeps

/-- The `do`/`while (attempts < maxRetries)` loop of `withAutomaticRetries`,
with `k` loop-body entries remaining and `attempts = a` (also the index of
the `request()` call this body makes); `sleeps` is the trace of durations
slept so far.  Returns the settled result, the sleep trace, and the total
number of `request()` calls.

Each body follows source lines 32-66: compute the provisional delay
`interval * 2 ** attempts + Math.random() * jitter`; call `request()`; a
response that is `ok` or not `shouldRetry` is returned immediately; a
rejected `ApiError` may override the delay via its `Retry-After` header and
any other rejection is swallowed; then sleep per `sleepsAfter` and increment
`attempts`.  After the last body, control falls through to the final
unconditional `return request()`. -/
def retryLoop (env : RetryEnv) : Nat → Nat → List Rat → RetryResult × List Rat × Nat
  | 0, a, sleeps => (finalAttemptResult (env.request a), sleeps, a + 1)
  | k + 1, a, sleeps =>
      let delay0 : Rat := env.interval * (2 : Rat) ^ a + env.random a * env.jitter
      match env.request a with
      | Attempt.resp r =>
          if env.respOk r || !env.shouldRetry r then
            (RetryResult.resolved r, sleeps, a + 1)
          else retryLoop env k (a + 1) (sleepsAfter env sleeps delay0)
      | Attempt.apiErr ra _ =>
          retryLoop env k (a + 1)
            (sleepsAfter env sleeps (applyRetryAfter ra env.dateParse (env.now a) delay0))
      | Attempt.err _ => retryLoop env k (a + 1) (sleepsAfter env sleeps delay0)

/-- `withAutomaticRetries(request, options)`: run the retry loop starting at
`attempts = 0`; with the effective `maxRetries` a positive integer, the
`do`/`while` body runs `maxRetries` times (unless a response returns early)
and is followed by the final unconditional attempt. -/
def withAutomaticRetries (env : RetryEnv) : RetryResult × List Rat × Nat :=
  retryLoop env env.maxRetries 0 []

/-! ## Pagination (`paginate` in `lib/replicate.js`) -/

/-- One page of a paginated listing: the `results` batch (items abstracted to
`Nat`) and the optional `next` URL. -/
structure PageT where
  results : List Nat
  next : Option String
  deriving DecidableEq, Repr

/-- The recursive async generator `paginate` (source lines 329-337), run to
exhaustion: yield the current page's `results`; if the page has a truthy
`next` URL, issue one GET for it and recurse on the fetched page.  `fetch u`
is the JSON body obtained for URL `u` through `this.request`; `fuel` bounds
the recursion depth (a cyclic page chain would drive the generator forever,
returning `none` here).  Returns the yielded batches and the number of GET
requests issued. -/
def paginate (fetch : String → PageT) : Nat → PageT → Option (List (List Nat) × Nat)
  | 0, _ => none
  | fuel + 1, p =>
      match p.next with
      | none => some ([p.results], 0)
      | some u =>
          match paginate fetch fuel (fetch u) with
          | none => none
          | some (pages, fetches) => some (p.results :: pages, fetches + 1)

/-- `IsChain fetch p ps`: starting from page `p`, following `next` links
through `fetch` visits exactly the pages `ps` and ends at a page whose `next`
is absent. -/
inductive IsChain (fetch : String → PageT) : PageT → List PageT → Prop
  | last (p : PageT) (h : p.next = none) : IsChain fetch p [p]
  | step (p : PageT) (u : String) (rest : List PageT) (h : p.next = some u)
      (htl : IsChain fetch (fetch u) rest) : IsChain fetch p (p :: rest)

/-! ## Completion waiter (`wait` in `lib/replicate.js`) and the run
orchestrator's stop-predicate -/

/-- A prediction record as consulted by `wait`: its `id`, `status` and
`error` fields.  A missing `id` is modelled by `""` (both are falsy). -/
structure Pred where
  id : String
  status : String
  error : String
  deriving DecidableEq, Repr

/-- The terminal-status test written (twice) in `wait`:
`status === "succeeded" || status === "failed" || status === "canceled"`. -/
def isTerminalStatus (s : String) : Bool :=
  s = "succeeded" || s = "failed" || s = "canceled"

/-- The errors `wait` can throw: `"Invalid prediction"` for a falsy `id`, and
the post-loop `"Prediction failed: ..."`. -/
inductive WaitErr where
  | invalidPrediction
  | predictionFailed (msg : String)
  deriving DecidableEq, Repr

/-- The observable outcome of a `wait` call: its settled value plus the
number of `predictions.get` status fetches and of `predictions.cancel`
requests it caused. -/
structure WaitOut where
  result : Except WaitErr Pred
  gets : Nat
  cancels : Nat
  deriving Repr

/-- The code after the polling loop (source lines 391-395): throw if the
last-held record's status is `failed`, otherwise return it. -/
def finishWait (cur : Pred) (gets cancels : Nat) : WaitOut :=
  if cur.status = "failed" then
    { result := Except.error (WaitErr.predictionFailed ("Prediction failed: " ++ cur.error))
      gets := gets, cancels := cancels }
  else { result := Except.ok cur, gets := gets, cancels := cancels }

/-- The polling loop of `wait` (source lines 376-389).  `fetch j` is the
record returned by the j-th `predictions.get` call (the fetch before the loop
is `fetch 0`); `stop`, when present, is the stop-predicate: at tick `k` it
receives the current record and returns its boolean result together with the
number of cancellation requests it issued.  `cur` is the current record
(always `fetch k` at tick `k`), and `cancels` the cancellations so far.

While `cur` is non-terminal the loop calls `stop` (its effects happen whether
or not it stops the loop), breaks if it returned `true`, and otherwise sleeps
`interval` and re-fetches.  Both loop exits fall through to `finishWait`;
`gets` at an exit from tick `k` is `k + 1`.  Fuel exhaustion (`none`) models
the unbounded loop running forever. -/
def waitLoop (fetch : Nat → Pred) (stop : Option (Nat → Pred → Bool × Nat)) :
    Nat → Pred → Nat → Nat → Option WaitOut
  | 0, _, _, _ => none
  | fuel + 1, cur, k, cancels =>
      if isTerminalStatus cur.status then some (finishWait cur (k + 1) cancels)
      else
        match stop with
        | some f =>
            let sr := f k cur
            if sr.1 then some (finishWait cur (k + 1) (cancels + sr.2))
            else waitLoop fetch stop fuel (fetch (k + 1)) (k + 1) (cancels + sr.2)
        | none => waitLoop fetch stop fuel (fetch (k + 1)) (k + 1) cancels

/-- `wait(prediction, options, stop)` (source lines 355-396): throw
`"Invalid prediction"` on a falsy `id`; return the given record unchanged if
its status is already terminal — before any network call; otherwise fetch the
current record (`fetch 0`) and run the polling loop. -/
def wait (fetch : Nat → Pred) (stop : Option (Nat → Pred → Bool × Nat))
    (prediction : Pred) (fuel : Nat) : Option WaitOut :=
  if prediction.id = "" then
    some { result := Except.error WaitErr.invalidPrediction, gets := 0, cancels := 0 }
  else if isTerminalStatus prediction.status then
    some { result := Except.ok prediction, gets := 0, cancels := 0 }
  else waitLoop fetch stop fuel (fetch 0) 0 0

/-- The stop-predicate `run` passes to `wait` (source lines 169-185): report
the polled record to the progress observer (no effect observable here), then,
if the caller's AbortSignal is aborted, issue exactly one
`predictions.cancel` request and return `true` to stop polling; otherwise
return `false`.  `aborted k` is the value of `signal.aborted` at the k-th
poll tick; a fired AbortSignal stays aborted, so `aborted` is monotone for
real signals (no theorem below needs that fact). -/
def runStop (aborted : Nat → Bool) : Nat → Pred → Bool × Nat :=
  fun k _ => (aborted k, if aborted k then 1 else 0)

/-! ## Further definitions used by the theorems -/

/-- Whether `transform` treats a value as a container: the `Array.isArray`
branch or the `isPlainObject` branch. -/
def isJSContainer (v : JSValue) : Bool :=
  match v with
  | JSValue.arrV _ => true
  | v => isPlainObject v

/-- Whether the leaf mapper of `transformFileInputs` base64-encodes the
value: Node `Buffer`s and `Blob`s. -/
def isBinaryValue : JSValue → Bool
  | JSValue.bufV _ => true
  | JSValue.blobV _ _ => true
  | _ => false

/-- An attempt outcome that does not return from the retry loop body: any
rejection (caught by the `try`/`catch`), or a response that is not `ok` and
that `shouldRetry` classifies as retryable. -/
def isRetried (env : RetryEnv) : Attempt → Bool
  | Attempt.resp r => !env.respOk r && env.shouldRetry r
  | Attempt.apiErr _ _ => true
  | Attempt.err _ => true

/-- Whether a `withAutomaticRetries` outcome is a rejection (the promise
fails) rather than a resolution. -/
def RetryResult.isRejection : RetryResult → Bool
  | RetryResult.resolved _ => false
  | RetryResult.rejectedApi _ _ => true
  | RetryResult.rejected _ => true

/-- The C2 scenario input: a plain object holding the same buffer twice;
with 6 MB of bytes its aggregate binary size is 12,000,000 bytes — above the
10,000,000-byte ceiling. -/
def twoBufferInput (bytes : List Nat) : JSValue :=
  JSValue.objV plainMeta
    (JSFields.cons "a" (JSValue.bufV bytes)
      (JSFields.cons "b" (JSValue.bufV bytes) JSFields.nil))

/-- What the encoder actually returns on `twoBufferInput`: both buffers
inlined as `data:` URIs, no error. -/
def twoBufferEncoded (bytes : List Nat) : JSValue :=
  JSValue.objV plainMeta
    (JSFields.cons "a"
      (JSValue.strV (dataURIString "application/octet-stream" bytes))
      (JSFields.cons "b"
        (JSValue.strV (dataURIString "application/octet-stream" bytes))
        JSFields.nil))

/-- The retry environment of the C3 scenario: `maxRetries = 2`,
`interval = 500`, `jitter = 100`, every `Math.random()` draw equal to `1/2`
(so every provisional delay is an integer), and a request that always
rejects with a non-`ApiError` error. -/
def backoffEnvHalf : RetryEnv :=
  { request := fun _ => Attempt.err 0
    respOk := fun _ => false
    shouldRetry := fun _ => false
    random := fun _ => (1 : Rat) / 2
    dateParse := fun _ => none
    now := fun _ => 0
    optMaxRetries := some 2
    optInterval := some 500
    optJitter := some 100 }

/-- As `backoffEnvHalf` but with every `Math.random()` draw equal to `1/3`,
so every provisional delay is positive yet not an integer. -/
def backoffEnvThird : RetryEnv :=
  { backoffEnvHalf with random := fun _ => (1 : Rat) / 3 }

/-- Date parsing for the C4 scenario: `new Date("30")` is an Invalid Date in
Node's V8 (a bare two-digit string above 12 parses as neither a month nor a
year), so the parse used here is empty on every string. -/
def invalidDateParse : String → Option Int := fun _ => none

/-! ## Claim theorems -/

/-- C1: the claim states that every input tree within the size ceiling is
returned structurally identical, arrays rebuilt positionally.  It fails on
the code: the array branch of `transform` reassigns the `const`-declared
accumulator (`copy = await transform(val, mapper)`), so any tree containing a
non-empty array — here the single-element array `[1]`, of aggregate binary
size 0 — makes `transformFileInputs` reject with a `TypeError` instead of
returning a tree. -/
theorem transformFileInputs_nonempty_array_raises :
    transformFileInputs (JSValue.arrV (JSList.cons (JSValue.primV "1") JSList.nil)) =
      Except.error jsConstAssignmentError := by
  simp [transformFileInputs, transform, fiMapper]

/-- C2: the claim states that the binary byte total is accumulated across the
whole traversal and that any tree whose aggregate exceeds the
10,000,000-byte ceiling makes the call fail with a size-limit error.  It
fails on the code: `totalBytes = 0 + value.byteLength` overwrites the
accumulator at every binary leaf, so a plain object holding two 6 MB buffers
(aggregate 12,000,000 bytes) is returned fully encoded with no error. -/
theorem transformFileInputs_overwrites_total (bytes : List Nat)
    (hlen : bytes.length = 6000000) :
    transformFileInputs (twoBufferInput bytes) = Except.ok (twoBufferEncoded bytes)
    ∧ aggregateBinaryBytes (twoBufferInput bytes) = 12000000
    ∧ MAX_DATA_URI_SIZE < 12000000 := by
  refine ⟨?_, ?_, by norm_num [MAX_DATA_URI_SIZE]⟩
  · simp [transformFileInputs, twoBufferInput, twoBufferEncoded, transform,
      transformFields, fiMapper, fiEncode, isPlainObject, plainMeta, MAX_DATA_URI_SIZE,
      hlen]
  · simp [aggregateBinaryBytes, aggregateBinaryBytesFields, twoBufferInput,
      isPlainObject, plainMeta, hlen]

/-- Witness for `transformFileInputs_overwrites_total`: six megabytes of zero
bytes satisfy the length hypothesis. -/
theorem transformFileInputs_overwrites_total_witness :
    (List.replicate 6000000 0).length = 6000000
    ∧ (transformFileInputs (twoBufferInput (List.replicate 6000000 0)) =
        Except.ok (twoBufferEncoded (List.replicate 6000000 0))
      ∧ aggregateBinaryBytes (twoBufferInput (List.replicate 6000000 0)) = 12000000
      ∧ MAX_DATA_URI_SIZE < 12000000) :=
  ⟨by rw [List.length_replicate],
   transformFileInputs_overwrites_total (List.replicate 6000000 0)
     (by rw [List.length_replicate])⟩

/-- C3: the claim states that each retried attempt sleeps the provisional
delay `interval * 2 ^ attempt + uniform_random(0, jitter)`, skipped only when
that delay is `≤ 0`.  It fails on the code: with `maxRetries = 2`,
`interval = 500`, `jitter = 100` and every random draw `1/2`, the provisional
delays are `550` and `1050`, but the durations slept are `[500, 500]` (the
code sleeps `interval * 2 ** (options.maxRetries - maxRetries)`, a constant);
and with random draw `1/3` the delays are positive yet non-integral, so
`Number.isInteger(delay)` fails and nothing is slept at all. -/
theorem withAutomaticRetries_sleep_trace :
    withAutomaticRetries backoffEnvHalf = (RetryResult.rejected 0, [(500 : Rat), 500], 3)
    ∧ backoffEnvHalf.interval * (2 : Rat) ^ (0 : Nat)
        + backoffEnvHalf.random 0 * backoffEnvHalf.jitter = 550
    ∧ backoffEnvHalf.interval * (2 : Rat) ^ (1 : Nat)
        + backoffEnvHalf.random 1 * backoffEnvHalf.jitter = 1050
    ∧ withAutomaticRetries backoffEnvThird = (RetryResult.rejected 0, ([] : List Rat), 3) := by
  refine ⟨?_, ?_, ?_, ?_⟩
  · norm_num [withAutomaticRetries, retryLoop, sleepsAfter, sleepAmount, finalAttemptResult,
      backoffEnvHalf, RetryEnv.maxRetries, RetryEnv.interval, RetryEnv.jitter,
      orDefaultNat, orDefaultRat, Rat.isInt]
  · norm_num [backoffEnvHalf, RetryEnv.interval, RetryEnv.jitter, orDefaultRat]
  · norm_num [backoffEnvHalf, RetryEnv.interval, RetryEnv.jitter, orDefaultRat]
  · norm_num [withAutomaticRetries, retryLoop, sleepsAfter, sleepAmount, finalAttemptResult,
      backoffEnvThird, backoffEnvHalf, RetryEnv.maxRetries, RetryEnv.interval, RetryEnv.jitter,
      orDefaultNat, orDefaultRat, Rat.isInt]

/-- C4: the claim states that a `Retry-After` value parsing as an integer
number of seconds sets the delay to `value * 1000` ms.  It fails on the code:
header values are strings and `Number.isInteger` is `false` on every string,
so the seconds branch is unreachable; for the header `"30"` the date branch
runs, `new Date("30")` is invalid, and the provisional delay (here 800)
stands instead of becoming 30000. -/
theorem applyRetryAfter_ignores_integer_seconds :
    applyRetryAfter (some "30") invalidDateParse 0 800 = 800
    ∧ (800 : Rat) ≠ 30 * 1000 := by
  refine ⟨?_, by norm_num⟩
  simp [applyRetryAfter, invalidDateParse, jsNumberIsIntegerStr]

/-- If the first `k` loop-body attempts starting at `attempts = a` are all
retried, the loop falls through to the final unconditional `request()`, whose
outcome is returned as-is; `a + k + 1` requests are made in total. -/
theorem retryLoop_exhaustion (env : RetryEnv) :
    ∀ (k a : Nat) (sleeps : List Rat),
      (∀ i, a ≤ i → i < a + k → isRetried env (env.request i) = true) →
      ∃ sl, retryLoop env k a sleeps =
        (finalAttemptResult (env.request (a + k)), sl, a + k + 1)
  | 0, a, sleeps, _ => ⟨sleeps, by simp [retryLoop]⟩
  | k + 1, a, sleeps, hall => by
      have ha : isRetried env (env.request a) = true := hall a le_rfl (by omega)
      have hall2 : ∀ i, a + 1 ≤ i → i < (a + 1) + k → isRetried env (env.request i) = true :=
        fun i h1 h2 => hall i (by omega) (by omega)
      have hkey : a + 1 + k = a + (k + 1) := by omega
      cases hreq : env.request a with
      | resp r =>
          rw [hreq] at ha
          have hok : env.respOk r = false := by
            cases h : env.respOk r <;> simp_all [isRetried]
          have hsr : env.shouldRetry r = true := by
            cases h : env.shouldRetry r <;> simp_all [isRetried]
          obtain ⟨sl, hsl⟩ := retryLoop_exhaustion env k (a + 1) _ hall2
          exact ⟨sl, by rw [retryLoop, hreq]; simp only [hok, hsr]; simpa [hkey] using hsl⟩
      | apiErr ra e =>
          obtain ⟨sl, hsl⟩ := retryLoop_exhaustion env k (a + 1) _ hall2
          exact ⟨sl, by rw [retryLoop, hreq]; simpa [hkey] using hsl⟩
      | err e =>
          obtain ⟨sl, hsl⟩ := retryLoop_exhaustion env k (a + 1) _ hall2
          exact ⟨sl, by rw [retryLoop, hreq]; simpa [hkey] using hsl⟩

/-- Every run of the retry loop that ends in a rejection made exactly
`a + k + 1` requests: rejections inside the loop are caught, so the promise
can only reject at the final unconditional attempt. -/
theorem retryLoop_rejection_calls (env : RetryEnv) :
    ∀ (k a : Nat) (sleeps : List Rat) (res : RetryResult) (sl : List Rat) (calls : Nat),
      retryLoop env k a sleeps = (res, sl, calls) →
      res.isRejection = true → calls = a + k + 1
  | 0, a, sleeps, res, sl, calls => by
      intro h _
      rw [retryLoop] at h
      injection h with h1 h2
      injection h2 with h2a h2b
      omega
  | k + 1, a, sleeps, res, sl, calls => by
      intro h hrej
      rw [retryLoop] at h
      cases hreq : env.request a with
      | resp r =>
          rw [hreq] at h
          by_cases hc : (env.respOk r || !env.shouldRetry r) = true
          · simp only [hc, if_true] at h
            obtain ⟨h1, _, h3⟩ := Prod.mk.injEq _ _ _ _ ▸ h
            rw [← h1] at hrej
            simp [RetryResult.isRejection] at hrej
          · simp only [Bool.not_eq_true] at hc
            simp only [hc, Bool.false_eq_true, if_false] at h
            have := retryLoop_rejection_calls env k (a + 1) _ res sl calls h hrej
            omega
      | apiErr ra e =>
          rw [hreq] at h
          have := retryLoop_rejection_calls env k (a + 1) _ res sl calls h hrej
          omega
      | err e =>
          rw [hreq] at h
          have := retryLoop_rejection_calls env k (a + 1) _ res sl calls h hrej
          omega

/-- C5: with the effective `maxRetries` a positive integer and every loop
attempt classified as retried (it rejected, or resolved non-`ok` and
`shouldRetry`), `withAutomaticRetries` issues one final unconditional attempt
whose outcome is returned as-is — without consulting `shouldRetry` — for a
total of `maxRetries + 1` request calls; and every run that ends in a
rejection (the promise finally failing) made exactly `maxRetries + 1`
attempts, whatever the request function and configuration. -/
theorem withAutomaticRetries_final_attempt (env : RetryEnv)
    (hall : ∀ i, i < env.maxRetries → isRetried env (env.request i) = true) :
    (∃ sl, withAutomaticRetries env =
        (finalAttemptResult (env.request env.maxRetries), sl, env.maxRetries + 1))
    ∧ (∀ (env2 : RetryEnv) (res : RetryResult) (sl : List Rat) (calls : Nat),
        withAutomaticRetries env2 = (res, sl, calls) → res.isRejection = true →
        calls = env2.maxRetries + 1) := by
  constructor
  · have h := retryLoop_exhaustion env env.maxRetries 0 []
      (fun i _ h2 => hall i (by omega))
    simpa [withAutomaticRetries] using h
  · intro env2 res sl calls h hrej
    have := retryLoop_rejection_calls env2 env2.maxRetries 0 [] res sl calls
      (by simpa [withAutomaticRetries] using h) hrej
    omega

/-- The environment of the C5 witness: two retries configured, and every
request resolving with a non-`ok` response that `shouldRetry` classifies as
retryable. -/
def alwaysRetryEnv : RetryEnv :=
  { request := fun _ => Attempt.resp 7
    respOk := fun _ => false
    shouldRetry := fun _ => true
    random := fun _ => 0
    dateParse := fun _ => none
    now := fun _ => 0
    optMaxRetries := some 2
    optInterval := some 500
    optJitter := some 100 }

/-- Witness for `withAutomaticRetries_final_attempt`: with `maxRetries = 2`
and every response retryable, the controller still resolves with the third
attempt's response, `shouldRetry` notwithstanding. -/
theorem withAutomaticRetries_final_attempt_witness :
    (∀ i, i < alwaysRetryEnv.maxRetries →
      isRetried alwaysRetryEnv (alwaysRetryEnv.request i) = true)
    ∧ ∃ sl, withAutomaticRetries alwaysRetryEnv =
        (finalAttemptResult (alwaysRetryEnv.request alwaysRetryEnv.maxRetries), sl,
          alwaysRetryEnv.maxRetries + 1) :=
  ⟨by decide, (withAutomaticRetries_final_attempt alwaysRetryEnv (by decide)).1⟩

/-- A chain always contains at least its starting page. -/
theorem IsChain.length_pos {fetch : String → PageT} {p : PageT} {ps : List PageT}
    (h : IsChain fetch p ps) : 0 < ps.length := by
  cases h <;> simp

/-- C6: exhausting `paginate` over a finite chain of pages ending in a page
with no `next` reference yields exactly the pages' `results` batches in chain
order, and issues one GET per followed `next` link — `length - 1` fetches, so
none after the final page. -/
theorem paginate_yields_chain (fetch : String → PageT) (p : PageT) (ps : List PageT)
    (h : IsChain fetch p ps) :
    paginate fetch ps.length p = some (ps.map PageT.results, ps.length - 1) := by
  induction h with
  | last q hq => simp [paginate, hq]
  | step q u rest hq htl ih =>
      have hpos := htl.length_pos
      have hlen : rest.length - 1 + 1 = rest.length := by omega
      simp [paginate, hq, ih, hlen]

/-- The three pages of the C6 witness chain. -/
def chainPage1 : PageT := { results := [1, 2], next := some "next1" }

/-- Second page of the witness chain. -/
def chainPage2 : PageT := { results := [3], next := some "next2" }

/-- Final page of the witness chain: no `next` reference. -/
def chainPage3 : PageT := { results := [4, 5], next := none }

/-- The fetch environment of the witness chain. -/
def chainFetch : String → PageT :=
  fun u => if u = "next1" then chainPage2 else chainPage3

/-- The witness chain is a chain. -/
theorem chainFetch_isChain :
    IsChain chainFetch chainPage1 [chainPage1, chainPage2, chainPage3] := by
  refine IsChain.step _ "next1" _ rfl ?_
  rw [show chainFetch "next1" = chainPage2 by simp [chainFetch]]
  refine IsChain.step _ "next2" _ rfl ?_
  rw [show chainFetch "next2" = chainPage3 by simp [chainFetch]]
  exact IsChain.last _ rfl

/-- Witness for `paginate_yields_chain`: the spec's three-page example
`[1,2] → [3] → [4,5] → null` yields exactly those batches with two
fetches. -/
theorem paginate_yields_chain_witness :
    IsChain chainFetch chainPage1 [chainPage1, chainPage2, chainPage3]
    ∧ paginate chainFetch 3 chainPage1 = some ([[1, 2], [3], [4, 5]], 2) := by
  refine ⟨chainFetch_isChain, ?_⟩
  have h := paginate_yields_chain chainFetch chainPage1
    [chainPage1, chainPage2, chainPage3] chainFetch_isChain
  simpa [chainPage1, chainPage2, chainPage3] using h

/-- C7: a prediction record with a non-empty `id` whose status is already
terminal is returned unchanged by `wait` at once, with zero status fetches
and zero cancellation requests. -/
theorem wait_terminal_returns_immediately (fetch : Nat → Pred)
    (stop : Option (Nat → Pred → Bool × Nat)) (p : Pred) (fuel : Nat)
    (hid : p.id ≠ "") (hterm : isTerminalStatus p.status = true) :
    wait fetch stop p fuel =
      some { result := Except.ok p, gets := 0, cancels := 0 } := by
  simp [wait, hid, hterm]

/-- A record already `succeeded`, for the C7 witness. -/
def doneRecord : Pred := { id := "p1", status := "succeeded", error := "" }

/-- Witness for `wait_terminal_returns_immediately`. -/
theorem wait_terminal_returns_immediately_witness :
    doneRecord.id ≠ "" ∧ isTerminalStatus doneRecord.status = true
    ∧ wait (fun _ => doneRecord) none doneRecord 5 =
        some { result := Except.ok doneRecord, gets := 0, cancels := 0 } :=
  ⟨by decide, by decide,
   wait_terminal_returns_immediately (fun _ => doneRecord) none doneRecord 5
     (by decide) (by decide)⟩

/-- A non-terminal status is in particular not `"failed"`. -/
theorem ne_failed_of_not_terminal {s : String} (h : isTerminalStatus s = false) :
    s ≠ "failed" := by
  intro hs
  subst hs
  simp [isTerminalStatus] at h

/-- If the polling loop (entered with the record produced by the k-th status
fetch) settles with the `"Prediction failed"` error, that error was produced
from a fetched record: at least one fetch happened, the last fetched record's
status is `failed`, and the message carries that record's `error` field. -/
theorem waitLoop_failed_from_fetch (fetch : Nat → Pred)
    (stop : Option (Nat → Pred → Bool × Nat)) :
    ∀ (fuel k cancels : Nat) (out : WaitOut) (msg : String),
      waitLoop fetch stop fuel (fetch k) k cancels = some out →
      out.result = Except.error (WaitErr.predictionFailed msg) →
      1 ≤ out.gets ∧ (fetch (out.gets - 1)).status = "failed"
        ∧ msg = "Prediction failed: " ++ (fetch (out.gets - 1)).error
  | 0, k, cancels, out, msg => by
      intro h _
      simp [waitLoop.eq_def] at h
  | fuel + 1, k, cancels, out, msg => by
      intro h hmsg
      rw [waitLoop.eq_def] at h
      simp only [] at h
      by_cases hterm : isTerminalStatus (fetch k).status = true
      · simp only [hterm, if_true] at h
        injection h with h1
        subst h1
        by_cases hfail : (fetch k).status = "failed"
        · simp only [finishWait, hfail, if_true, if_pos] at hmsg ⊢
          injection hmsg with hmsg1
          injection hmsg1 with hmsg2
          simp [hfail, ← hmsg2]
        · simp [finishWait, hfail] at hmsg
      · simp only [hterm, Bool.false_eq_true, if_false] at h
        cases stop with
        | none =>
            exact waitLoop_failed_from_fetch fetch none fuel (k + 1) cancels out msg h hmsg
        | some f =>
            by_cases hsr : (f k (fetch k)).1 = true
            · simp only [hsr, if_true] at h
              injection h with h1
              subst h1
              have : (fetch k).status ≠ "failed" :=
                ne_failed_of_not_terminal (by simpa using hterm)
              simp [finishWait, this] at hmsg
            · simp only [Bool.not_eq_true] at hsr
              simp only [hsr, Bool.false_eq_true, if_false] at h
              exact waitLoop_failed_from_fetch fetch (some f) fuel (k + 1) _ out msg h hmsg

/-- C9: a record passed to `wait` already in status `failed` (with a
non-empty `id`) is returned unchanged without raising; and whenever `wait`
settles with the `"Prediction failed"` error, the failed status was observed
on a record fetched from the service during polling (at least one fetch, the
last fetched record is `failed`, and the message carries its `error`). -/
theorem wait_failed_semantics (fetch : Nat → Pred)
    (stop : Option (Nat → Pred → Bool × Nat)) (p : Pred) (fuel : Nat) :
    (p.id ≠ "" → p.status = "failed" →
      wait fetch stop p fuel = some { result := Except.ok p, gets := 0, cancels := 0 })
    ∧ (∀ (out : WaitOut) (msg : String), wait fetch stop p fuel = some out →
        out.result = Except.error (WaitErr.predictionFailed msg) →
        1 ≤ out.gets ∧ (fetch (out.gets - 1)).status = "failed"
          ∧ msg = "Prediction failed: " ++ (fetch (out.gets - 1)).error) := by
  constructor
  · intro hid hfail
    have hterm : isTerminalStatus p.status = true := by simp [isTerminalStatus, hfail]
    simp [wait, hid, hterm]
  · intro out msg h hmsg
    rw [wait] at h
    by_cases hid : p.id = ""
    · simp only [hid, if_pos] at h
      injection h with h1
      subst h1
      simp at hmsg
    · simp only [hid, if_neg, if_false] at h
      by_cases hterm : isTerminalStatus p.status = true
      · simp only [hterm, if_true] at h
        injection h with h1
        subst h1
        simp at hmsg
      · simp only [hterm, Bool.false_eq_true, if_false] at h
        exact waitLoop_failed_from_fetch fetch stop fuel 0 0 out msg h hmsg

/-- A record still in progress, used to start the C8/C9 witnesses. -/
def startingRecord : Pred := { id := "p3", status := "starting", error := "" }

/-- The status fetch used by the C9 witness: the service reports `failed`
with error payload `"boom"`. -/
def pollFailedFetch : Nat → Pred :=
  fun _ => { id := "p3", status := "failed", error := "boom" }

/-- Witness for `wait_failed_semantics`: a `failed` input record is returned
unchanged, while a `failed` record fetched during polling raises the error
with one fetch performed. -/
theorem wait_failed_semantics_witness :
    (wait pollFailedFetch none { id := "p2", status := "failed", error := "boom" } 1 =
      some { result := Except.ok { id := "p2", status := "failed", error := "boom" },
             gets := 0, cancels := 0 })
    ∧ (1 ≤ (1 : Nat) ∧ (pollFailedFetch 0).status = "failed"
        ∧ "Prediction failed: boom" = "Prediction failed: " ++ (pollFailedFetch 0).error) := by
  constructor
  · exact (wait_failed_semantics pollFailedFetch none
      { id := "p2", status := "failed", error := "boom" } 1).1 (by decide) rfl
  · have h := (wait_failed_semantics pollFailedFetch none startingRecord 1).2
      { result := Except.error (WaitErr.predictionFailed "Prediction failed: boom")
        gets := 1, cancels := 0 }
      "Prediction failed: boom" rfl rfl
    simpa using h

/-- If the loop (entered at tick `k` with the k-th fetched record) sees only
non-terminal statuses and an unaborted signal until the signal is first
observed aborted at tick `k + t`, then `run`'s stop-predicate issues exactly
one cancellation there, polling stops, and the last status fetch is the one
inspected at that tick (`k + t + 1` fetches in total). -/
theorem waitLoop_abort_cancels (fetch : Nat → Pred) (aborted : Nat → Bool) :
    ∀ (t fuel k cancels : Nat),
      (∀ j, k ≤ j → j ≤ k + t → isTerminalStatus (fetch j).status = false) →
      (∀ j, k ≤ j → j < k + t → aborted j = false) →
      aborted (k + t) = true →
      t < fuel →
      waitLoop fetch (some (runStop aborted)) fuel (fetch k) k cancels =
        some { result := Except.ok (fetch (k + t)), gets := k + t + 1,
               cancels := cancels + 1 }
  | 0, 0, k, cancels => by intro _ _ _ hfuel; omega
  | 0, fuel + 1, k, cancels => by
      intro hnt hna ha _
      rw [waitLoop.eq_def]
      have hk : isTerminalStatus (fetch k).status = false := hnt k le_rfl (by omega)
      have hak : aborted k = true := by simpa using ha
      have hnf : (fetch k).status ≠ "failed" := ne_failed_of_not_terminal hk
      simp [hk, runStop, hak, finishWait, hnf]
  | t + 1, 0, k, cancels => by intro _ _ _ hfuel; omega
  | t + 1, fuel + 1, k, cancels => by
      intro hnt hna ha _
      rw [waitLoop.eq_def]
      have hk : isTerminalStatus (fetch k).status = false := hnt k le_rfl (by omega)
      have hak : aborted k = false := hna k le_rfl (by omega)
      have hkey : k + 1 + t = k + (t + 1) := by omega
      have ih := waitLoop_abort_cancels fetch aborted t fuel (k + 1) cancels
        (fun j h1 h2 => hnt j (by omega) (by omega))
        (fun j h1 h2 => hna j (by omega) (by omega))
        (by rw [hkey]; exact ha) (by omega)
      rw [hkey] at ih
      simp [hk, runStop, hak, ih]

/-- C8: in `run`, when the caller's cancellation signal is first observed
aborted at a poll tick, exactly one cancellation request is issued and
polling stops: no status fetch occurs after that tick. -/
theorem run_abort_single_cancel (fetch : Nat → Pred) (aborted : Nat → Bool)
    (p : Pred) (t fuel : Nat)
    (hid : p.id ≠ "") (hp : isTerminalStatus p.status = false)
    (hnt : ∀ j, j ≤ t → isTerminalStatus (fetch j).status = false)
    (hna : ∀ j, j < t → aborted j = false)
    (ha : aborted t = true) (hfuel : t < fuel) :
    wait fetch (some (runStop aborted)) p fuel =
      some { result := Except.ok (fetch t), gets := t + 1, cancels := 1 } := by
  rw [wait]
  simp only [hid, if_neg, if_false, hp, Bool.false_eq_true]
  have h := waitLoop_abort_cancels fetch aborted t fuel 0 0
    (fun j h1 h2 => hnt j (by omega)) (fun j h1 h2 => hna j (by omega))
    (by simpa using ha) hfuel
  simpa using h

/-- The signal of the C8 witness: fires on the second poll tick. -/
def abortedOnSecondTick : Nat → Bool := fun k => decide (1 ≤ k)

/-- The status fetch of the C8 witness: the prediction stays `processing`. -/
def processingFetch : Nat → Pred :=
  fun _ => { id := "p3", status := "processing", error := "" }

/-- Witness for `run_abort_single_cancel`: the signal fires on the second
tick; exactly one cancellation is issued and exactly two status fetches
happen. -/
theorem run_abort_single_cancel_witness :
    wait processingFetch (some (runStop abortedOnSecondTick)) startingRecord 3 =
      some { result := Except.ok (processingFetch 1), gets := 2, cancels := 1 } :=
  run_abort_single_cancel processingFetch abortedOnSecondTick startingRecord 1 3
    (by decide) (by decide) (by decide) (by decide) (by decide) (by decide)

/-- C10: `transform` treats only arrays and plain objects as containers;
every other value — in particular any object whose `String(value)` tag is not
`"[object Object]"` (`Map`, `Set`, `Date`, ...) and any class instance whose
prototype constructor is not the base `Object` — is passed to the leaf
transformer, which returns it unchanged (with the byte total untouched)
whenever it is neither a `Buffer` nor a `Blob`. -/
theorem transform_nonContainer_leaf (v : JSValue) (s : Nat) (meta : ObjMeta)
    (fs : JSFields)
    (hv : isJSContainer v = false)
    (hmeta : meta.stringTag ≠ "[object Object]" ∨
      (meta.protoIsNull = false ∧ (meta.ctorIsFun && meta.ctorSrcIsObjectSrc) = false)) :
    transform fiMapper s v = Except.ok (fiMapper s v)
    ∧ (isBinaryValue v = false → fiMapper s v = (s, v))
    ∧ isJSContainer (JSValue.objV meta fs) = false := by
  refine ⟨?_, ?_, ?_⟩
  · cases v with
    | arrV l => simp [isJSContainer] at hv
    | objV m f =>
        have hpl : isPlainObject (JSValue.objV m f) = false := by
          simpa [isJSContainer] using hv
        simp [transform, hpl]
    | bufV b => simp [transform]
    | blobV b m => simp [transform]
    | strV s2 => simp [transform]
    | nullV => simp [transform]
    | primV tg => simp [transform]
  · intro hbin
    cases v <;> simp_all [fiMapper, isBinaryValue]
  · rcases hmeta with h | ⟨h1, h2⟩
    · simp [isJSContainer, isPlainObject, h]
    · simp only [isJSContainer, isPlainObject, h1, h2]
      split <;> simp [h2]

/-- A `Date` instance as seen by `isPlainObject`: `String(value)` is a date
string, not `"[object Object]"`. -/
def dateMeta : ObjMeta :=
  { stringTag := "Sun Oct 11 2026", protoIsNull := false
    ctorIsFun := true, ctorSrcIsObjectSrc := false }

/-- An instance of a user-defined class: it stringifies as
`"[object Object]"` but its prototype's constructor is not `Object`. -/
def classInstanceMeta : ObjMeta :=
  { stringTag := "[object Object]", protoIsNull := false
    ctorIsFun := true, ctorSrcIsObjectSrc := false }

/-- A `Date`-like leaf value. -/
def dateObject : JSValue := JSValue.objV dateMeta JSFields.nil

/-- Witness for `transform_nonContainer_leaf`: a `Date` instance is a leaf
and passes through the encoder's mapper unchanged; a class instance is not a
container either. -/
theorem transform_nonContainer_leaf_witness :
    isJSContainer dateObject = false
    ∧ (transform fiMapper 0 dateObject = Except.ok (fiMapper 0 dateObject)
      ∧ (isBinaryValue dateObject = false → fiMapper 0 dateObject = (0, dateObject))
      ∧ isJSContainer (JSValue.objV classInstanceMeta JSFields.nil) = false) :=
  ⟨by decide,
   transform_nonContainer_leaf dateObject 0 classInstanceMeta JSFields.nil
     (by decide) (Or.inr ⟨rfl, by decide⟩)⟩

end Replicate
